import Mathlib

/-!
Verification of the knowledge-refinery pipeline against its design notes.

The development shallowly embeds the Python modules that the claims touch:

* `src/utils/background_tasks.py` — the `BackgroundTaskManager` registry.
  Python dictionaries become association lists over `String` keys; a value
  that Python may set to `None` becomes an `Option`.  Submitting work
  (`run_task`) returns the updated manager together with the pending unit of
  work that the spawned thread would execute; `finish_task` is the effect of
  that thread body (`task_wrapper`) running to completion.  The outcome of a
  Python work function is an `Except`: `Except.error msg` models the function
  raising an exception whose `str` is `msg`, and `Except.ok v` models a
  normal return (with `v : Option α`, since a Python function may return
  `None`).

* `src/utils/llm_corrector.py` and `src/utils/llm_summarizer.py` — the LLM
  adapters.  The network call to the completion endpoint is abstracted as a
  `responder` argument receiving the exact request the code builds
  (system message, user prompt, model, temperature, max tokens).

* `src/services/lesson_service.py` — the lesson persistence slots the stage
  tasks write, restricted to the fields the claims mention.

* `src/pages/Process.py` — the task-key strings and the `correct_task`
  closure submitted to the registry.

Temperatures are represented as rationals (the Python floats involved are
all exact decimals such as 0.7 and 0.3).
-/

/-! ## Python dictionaries as association lists -/

def dictGet {β : Type} : List (String × β) → String → Option β
  | [], _ => none
  | (k₂, v) :: rest, k => if k₂ = k then some v else dictGet rest k

def dictSet {β : Type} : List (String × β) → String → β → List (String × β)
  | [], k, v => [(k, v)]
  | (k₂, v₂) :: rest, k, v =>
      if k₂ = k then (k, v) :: rest else (k₂, v₂) :: dictSet rest k v

def dictDel {β : Type} : List (String × β) → String → List (String × β)
  | [], _ => []
  | (k₂, v₂) :: rest, k =>
      if k₂ = k then dictDel rest k else (k₂, v₂) :: dictDel rest k

def dictContains {β : Type} (d : List (String × β)) (k : String) : Bool :=
  (dictGet d k).isSome

theorem dictGet_set_self {β : Type} (d : List (String × β)) (k : String) (v : β) :
    dictGet (dictSet d k v) k = some v := by
  induction d with
  | nil => simp [dictGet, dictSet]
  | cons hd tl ih =>
      obtain ⟨k₂, v₂⟩ := hd
      by_cases h : k₂ = k
      · simp [dictGet, dictSet, h]
      · simp [dictGet, dictSet, h, ih]

theorem dictGet_set_ne {β : Type} (d : List (String × β)) (k k₂ : String) (v : β)
    (h : k₂ ≠ k) : dictGet (dictSet d k v) k₂ = dictGet d k₂ :=  by
  induction d with
  | nil => simp [dictGet, dictSet, Ne.symm h]
  | cons hd tl ih =>
      obtain ⟨k₃, v₃⟩ := hd
      by_cases h₃ : k₃ = k
      · subst h₃
        simp [dictGet, dictSet, Ne.symm h]
      · simp [dictGet, dictSet, h₃, ih]

theorem dictGet_del_self {β : Type} (d : List (String × β)) (k : String) :
    dictGet (dictDel d k) k = none := by
  induction d with
  | nil => simp [dictGet, dictDel]
  | cons hd tl ih =>
      obtain ⟨k₂, v₂⟩ := hd
      by_cases h : k₂ = k
      · simp [dictDel, h, ih]
      · simp [dictGet, dictDel, h, ih]

/-! ## BackgroundTaskManager (src/utils/background_tasks.py)

State of one manager: the three session-state dictionaries.
`background_tasks` maps a task id to the running flag, `task_results` and
`task_errors` hold the value the wrapper stored (initialised to Python
`None`, hence the inner `Option`). -/

structure TaskManager (α : Type) where
  background_tasks : List (String × Bool)
  task_results : List (String × Option α)
  task_errors : List (String × Option String)

/-- The unit of work handed to the spawned thread: the captured task id and
the behaviour of the captured work function when it eventually runs. -/
structure PendingTask (α : Type) where
  task_id : String
  func : Except String (Option α)

/-- Embeds `BackgroundTaskManager.run_task`: if the id is already a key of
`background_tasks` it returns at once, starting nothing; otherwise it marks
the task running, resets result and error to `None`, and starts a thread
(returned here as the pending work). -/
def run_task {α : Type} (m : TaskManager α) (task_id : String)
    (func : Except String (Option α)) : TaskManager α × Option (PendingTask α) :=
  if dictContains m.background_tasks task_id then
    (m, none)
  else
    ({ background_tasks := dictSet m.background_tasks task_id true,
       task_results := dictSet m.task_results task_id none,
       task_errors := dictSet m.task_errors task_id none },
     some { task_id := task_id, func := func })

/-- The body of `task_wrapper` running to completion: on normal return the
value is stored in `task_results`, on an exception its message is stored in
`task_errors`; either way the running flag is set to `False`. -/
def finish_task {α : Type} (m : TaskManager α) (p : PendingTask α) : TaskManager α :=
  match p.func with
  | Except.ok result =>
      { m with task_results := dictSet m.task_results p.task_id result,
               background_tasks := dictSet m.background_tasks p.task_id false }
  | Except.error e =>
      { m with task_errors := dictSet m.task_errors p.task_id (some e),
               background_tasks := dictSet m.background_tasks p.task_id false }

/-- Embeds `is_running`: `self.background_tasks.get(task_id, False)`. -/
def is_running {α : Type} (m : TaskManager α) (task_id : String) : Bool :=
  (dictGet m.background_tasks task_id).getD false

/-- Embeds `get_result`: `self.task_results.get(task_id)` — an absent key and a
stored `None` are both reported as `None`. -/
def get_result {α : Type} (m : TaskManager α) (task_id : String) : Option α :=
  (dictGet m.task_results task_id).getD none

/-- Embeds `get_error`: `self.task_errors.get(task_id)`. -/
def get_error {α : Type} (m : TaskManager α) (task_id : String) : Option String :=
  (dictGet m.task_errors task_id).getD none

/-- Embeds `is_complete`: false when the id is unknown, otherwise the negated
running flag. -/
def is_complete {α : Type} (m : TaskManager α) (task_id : String) : Bool :=
  match dictGet m.background_tasks task_id with
  | none => false
  | some b => !b

/-- Embeds `clear_task`: deletes the id from all three dictionaries. -/
def clear_task {α : Type} (m : TaskManager α) (task_id : String) : TaskManager α :=
  { background_tasks := dictDel m.background_tasks task_id,
    task_results := dictDel m.task_results task_id,
    task_errors := dictDel m.task_errors task_id }

/-- C1: submitting under a key already present in the registry is a complete
no-op — the manager state is unchanged, no worker is started, stored result
and error are untouched, and the pending original run still produces its own
result, which is what a poller then observes. -/
theorem run_task_single_flight {α : Type} (m : TaskManager α) (task_id : String)
    (func : Except String (Option α))
    (h : dictContains m.background_tasks task_id = true) :
    run_task m task_id func = (m, none) ∧
    get_result (run_task m task_id func).1 task_id = get_result m task_id ∧
    get_error (run_task m task_id func).1 task_id = get_error m task_id ∧
    (∀ r : Option α,
      get_result (finish_task (run_task m task_id func).1 ⟨task_id, Except.ok r⟩) task_id = r) := by
  have hrun : run_task m task_id func = (m, none) := by
    simp [run_task, h]
  refine ⟨hrun, by rw [hrun], by rw [hrun], ?_⟩
  intro r
  rw [hrun]
  simp [finish_task, get_result, dictGet_set_self]

/-- Witness for C1 at a concrete registry state with a running task. -/
theorem run_task_single_flight_witness :
    dictContains (TaskManager.mk [("correct_1", true)] [("correct_1", none)]
      [("correct_1", none)] : TaskManager Nat).background_tasks "correct_1" = true ∧
    run_task (TaskManager.mk [("correct_1", true)] [("correct_1", none)]
      [("correct_1", none)] : TaskManager Nat) "correct_1" (Except.ok (some 5)) =
      (TaskManager.mk [("correct_1", true)] [("correct_1", none)] [("correct_1", none)], none) :=
  ⟨by decide, (run_task_single_flight
      (TaskManager.mk [("correct_1", true)] [("correct_1", none)] [("correct_1", none)])
      "correct_1" (Except.ok (some 5)) (by decide)).1⟩

/-- C4: clearing a key makes both status queries report false and removes
the stored result and error, for any registry state. -/
theorem clear_task_returns_to_absent {α : Type} (m : TaskManager α) (task_id : String) :
    is_running (clear_task m task_id) task_id = false ∧
    is_complete (clear_task m task_id) task_id = false ∧
    dictGet (clear_task m task_id).task_results task_id = none ∧
    dictGet (clear_task m task_id).task_errors task_id = none ∧
    get_result (clear_task m task_id) task_id = none ∧
    get_error (clear_task m task_id) task_id = none := by
  refine ⟨?_, ?_, ?_, ?_, ?_, ?_⟩ <;>
    simp [clear_task, is_running, is_complete, get_result, get_error, dictGet_del_self]

/-- C2 fails as stated: a work function that successfully returns Python
`None` finishes with an empty result AND an empty error.  Starting from an
empty registry, submitting such a function under key "k" and letting the
worker finish yields a complete task where `get_result` and `get_error` are
both `None` — neither side is non-empty. -/
theorem complete_result_xor_error_counterexample :
    (run_task (TaskManager.mk [] [] [] : TaskManager Nat) "k" (Except.ok none)).2 =
      some { task_id := "k", func := Except.ok none } ∧
    is_complete (finish_task
      (run_task (TaskManager.mk [] [] [] : TaskManager Nat) "k" (Except.ok none)).1
      { task_id := "k", func := Except.ok none }) "k" = true ∧
    get_result (finish_task
      (run_task (TaskManager.mk [] [] [] : TaskManager Nat) "k" (Except.ok none)).1
      { task_id := "k", func := Except.ok none }) "k" = none ∧
    get_error (finish_task
      (run_task (TaskManager.mk [] [] [] : TaskManager Nat) "k" (Except.ok none)).1
      { task_id := "k", func := Except.ok none }) "k" = none :=
  ⟨rfl, rfl, rfl, rfl⟩

/-- C2 amended: for a key that was free at submission time, once the worker
finishes, exactly one of `get_result` and `get_error` is non-empty —
provided the work function did not successfully return `None` (a `None`
return is indistinguishable from an absent result and leaves both empty). -/
theorem complete_result_xor_error {α : Type} (m : TaskManager α) (task_id : String)
    (func : Except String (Option α))
    (hfree : dictContains m.background_tasks task_id = false)
    (hnotnone : func ≠ Except.ok none) :
    is_complete (finish_task (run_task m task_id func).1
      { task_id := task_id, func := func }) task_id = true ∧
    (get_result (finish_task (run_task m task_id func).1
      { task_id := task_id, func := func }) task_id).isSome =
    !(get_error (finish_task (run_task m task_id func).1
      { task_id := task_id, func := func }) task_id).isSome := by
  have hrun : dictContains m.background_tasks task_id = false := hfree
  match func with
  | Except.ok none => exact absurd rfl hnotnone
  | Except.ok (some r) =>
      constructor
      · simp [run_task, hrun, finish_task, is_complete, dictGet_set_self]
      · simp [run_task, hrun, finish_task, get_result, get_error,
          dictGet_set_self]
  | Except.error e =>
      constructor
      · simp [run_task, hrun, finish_task, is_complete, dictGet_set_self]
      · simp [run_task, hrun, finish_task, get_result, get_error,
          dictGet_set_self]

/-- Witness for the amended C2 at a concrete fresh key and a work function
returning 7. -/
theorem complete_result_xor_error_witness :
    is_complete (finish_task
      (run_task (TaskManager.mk [] [] [] : TaskManager Nat) "k" (Except.ok (some 7))).1
      { task_id := "k", func := Except.ok (some 7) }) "k" = true ∧
    (get_result (finish_task
      (run_task (TaskManager.mk [] [] [] : TaskManager Nat) "k" (Except.ok (some 7))).1
      { task_id := "k", func := Except.ok (some 7) }) "k").isSome =
    !(get_error (finish_task
      (run_task (TaskManager.mk [] [] [] : TaskManager Nat) "k" (Except.ok (some 7))).1
      { task_id := "k", func := Except.ok (some 7) }) "k").isSome :=
  complete_result_xor_error (TaskManager.mk [] [] []) "k" (Except.ok (some 7))
    rfl (by intro hh; exact Option.noConfusion (Except.ok.inj hh))

/-! ## LLM adapters (src/utils/llm_corrector.py, src/utils/llm_summarizer.py)

The exceptions the adapter code can raise.  The task wrapper only keeps the
message (`str(e)`), extracted by `PyError.msg`. -/

inductive PyError where
  | valueError (m : String)
  | notImplementedError (m : String)
  | nameError (m : String)
  | apiError (m : String)
  deriving DecidableEq, Repr

def PyError.msg : PyError → String
  | PyError.valueError m => m
  | PyError.notImplementedError m => m
  | PyError.nameError m => m
  | PyError.apiError m => m

/-- One chat-completion request as built by the adapters: system message,
user message, model, temperature and max tokens as passed to
`client.chat.completions.create`. -/
structure LLMRequest where
  system : String
  user : String
  model : String
  temperature : ℚ
  max_tokens : Nat
  deriving DecidableEq, Repr

/-- The network side of `client.chat.completions.create` followed by the
choice extraction: given a request it either yields the completion text or
fails (modelling an API exception). -/
def LLMResponder : Type := LLMRequest → Except PyError String

/-- Python str.strip(): remove leading and trailing whitespace.  Defined by
structural recursion over the character list so that concrete instances
evaluate inside the kernel. -/
def pyStrip (s : String) : String :=
  String.mk (((s.data.dropWhile Char.isWhitespace).reverse.dropWhile
    Char.isWhitespace).reverse)

/-- Python truthiness of an optional string: `None` and the empty string are
falsy. -/
def strTruthy : Option String → Bool
  | none => false
  | some s => !(s = "")

/-- The default correction prompt of `correct_transcript`. -/
def default_prompt : String :=
  "Please correct any errors in the following transcription, including grammar, punctuation, and factual accuracy. Maintain the original meaning and style. Return only the corrected text without additional commentary."

/-- System message used by the correction adapter. -/
def correctorSystem : String :=
  "You are a helpful assistant that corrects transcriptions."

/-- Embeds `correct_transcript` from src/utils/llm_corrector.py.  The api key check,
prompt composition and provider dispatch follow the source line by line; the
openai branch issues the request with temperature 0.7 and max_tokens 4000
and strips the returned text.  The anthropic branch raises a NameError
because the module never imports `Anthropic`. -/
def correct_transcript (transcript : String) (provider : String) (model : String)
    (custom_prompt : Option String) (api_key : Option String)
    (responder : LLMResponder) : Except PyError String :=
  if !(strTruthy api_key) then
    Except.error (PyError.valueError "API key is required")
  else
    let prompt := if strTruthy custom_prompt then custom_prompt.getD "" else default_prompt
    let full_prompt := prompt ++ "\n\nTranscription:\n" ++ transcript
    if provider = "openai" then
      (responder { system := correctorSystem, user := full_prompt, model := model,
                   temperature := 7/10, max_tokens := 4000 }).map pyStrip
    else if provider = "anthropic" then
      Except.error (PyError.nameError "name Anthropic is not defined")
    else if provider = "local" then
      Except.error (PyError.notImplementedError
        "Local provider not yet implemented. Please use OpenAI or Anthropic.")
    else
      Except.error (PyError.valueError ("Unknown provider: " ++ provider))

/-- System message used by the summarization adapter. -/
def summarizerSystem : String :=
  "You are a helpful assistant that creates summaries."

/-- The instruction `type_instructions.get(summary_type, "Create a summary")`
of `summarize_text`. -/
def type_instruction (summary_type : String) : String :=
  if summary_type = "Brief" then "Create a brief, concise summary"
  else if summary_type = "Detailed" then "Create a detailed, comprehensive summary"
  else if summary_type = "Bullet Points" then "Create a summary in bullet point format"
  else if summary_type = "Executive Summary" then
    "Create an executive summary highlighting key points and decisions"
  else "Create a summary"

/-- Embeds `summarize_text` from src/utils/llm_summarizer.py, embedded like
`correct_transcript`; the openai branch uses temperature 0.7 and
max_tokens 2000. -/
def summarize_text (text : String) (provider : String) (model : String)
    (summary_type : String) (max_length : Nat) (custom_prompt : Option String)
    (api_key : Option String) (responder : LLMResponder) : Except PyError String :=
  if !(strTruthy api_key) then
    Except.error (PyError.valueError "API key is required")
  else
    let prompt :=
      if strTruthy custom_prompt then custom_prompt.getD ""
      else type_instruction summary_type ++ " of the following text in approximately " ++
        toString max_length ++ " words. Return only the summary without additional commentary."
    let full_prompt := prompt ++ "\n\nText:\n" ++ text
    if provider = "openai" then
      (responder { system := summarizerSystem, user := full_prompt, model := model,
                   temperature := 7/10, max_tokens := 2000 }).map pyStrip
    else if provider = "anthropic" then
      Except.error (PyError.nameError "name Anthropic is not defined")
    else if provider = "local" then
      Except.error (PyError.notImplementedError
        "Local provider not yet implemented. Please use OpenAI or Anthropic.")
    else
      Except.error (PyError.valueError ("Unknown provider: " ++ provider))

/-- C7: with a truthy api key, the Correct work body sends the LLM the user
prompt `configuredPrompt ++ "\n\nTranscription:\n" ++ transcript` under the
fixed corrector system message; with no configured prompt the default
correction prompt takes its place. -/
theorem correct_prompt_composition (transcript model p : String) (key : Option String)
    (responder : LLMResponder) (hkey : strTruthy key = true) (hp : p ≠ "") :
    correct_transcript transcript "openai" model (some p) key responder =
      (responder { system := correctorSystem,
                   user := p ++ "\n\nTranscription:\n" ++ transcript,
                   model := model, temperature := 7/10, max_tokens := 4000 }).map pyStrip ∧
    correct_transcript transcript "openai" model none key responder =
      (responder { system := correctorSystem,
                   user := default_prompt ++ "\n\nTranscription:\n" ++ transcript,
                   model := model, temperature := 7/10, max_tokens := 4000 }).map pyStrip := by
  have hcp : strTruthy (some p) = true := by simp [strTruthy, hp]
  have hn : strTruthy (none : Option String) = false := rfl
  constructor
  · simp [correct_transcript, hkey, hcp]
  · simp [correct_transcript, hkey, hn]

/-- Witness for C7: a concrete transcript, configured prompt and key. -/
theorem correct_prompt_composition_witness :
    correct_transcript "hello wrld" "openai" "gpt-4o" (some "Fix typos.") (some "sk-1")
      (fun req => Except.ok req.user) =
      ((fun req : LLMRequest => Except.ok req.user)
        { system := correctorSystem,
          user := "Fix typos." ++ "\n\nTranscription:\n" ++ "hello wrld",
          model := "gpt-4o", temperature := 7/10, max_tokens := 4000 }).map pyStrip ∧
    correct_transcript "hello wrld" "openai" "gpt-4o" none (some "sk-1")
      (fun req => Except.ok req.user) =
      ((fun req : LLMRequest => Except.ok req.user)
        { system := correctorSystem,
          user := default_prompt ++ "\n\nTranscription:\n" ++ "hello wrld",
          model := "gpt-4o", temperature := 7/10, max_tokens := 4000 }).map pyStrip :=
  correct_prompt_composition "hello wrld" "gpt-4o" "Fix typos." (some "sk-1")
    (fun req => Except.ok req.user) (by decide) (by decide)

/-- C8: both LLM adapters fail with "API key is required" whenever the key is
falsy, for EVERY provider string (the key check is the first line of both
functions, before any provider dispatch — in particular it fires for the
recognized providers openai, anthropic and local); with a truthy key they
fail with an error naming the provider when it is none of openai, anthropic
or local; and the local provider always fails with NotImplemented.  In every
such case the responder is never consulted and no completion is returned. -/
theorem llm_failure_modes (text model stype : String) (len : Nat) (cp : Option String)
    (key₀ key₁ : Option String) (provider₀ provider : String) (r₁ r₂ : LLMResponder)
    (h₀ : strTruthy key₀ = false) (h₁ : strTruthy key₁ = true)
    (hp₁ : provider ≠ "openai") (hp₂ : provider ≠ "anthropic") (hp₃ : provider ≠ "local") :
    correct_transcript text provider₀ model cp key₀ r₁ =
      Except.error (PyError.valueError "API key is required") ∧
    summarize_text text provider₀ model stype len cp key₀ r₂ =
      Except.error (PyError.valueError "API key is required") ∧
    correct_transcript text provider model cp key₁ r₁ =
      Except.error (PyError.valueError ("Unknown provider: " ++ provider)) ∧
    summarize_text text provider model stype len cp key₁ r₂ =
      Except.error (PyError.valueError ("Unknown provider: " ++ provider)) ∧
    correct_transcript text "local" model cp key₁ r₁ =
      Except.error (PyError.notImplementedError
        "Local provider not yet implemented. Please use OpenAI or Anthropic.") ∧
    summarize_text text "local" model stype len cp key₁ r₂ =
      Except.error (PyError.notImplementedError
        "Local provider not yet implemented. Please use OpenAI or Anthropic.") := by
  refine ⟨?_, ?_, ?_, ?_, ?_, ?_⟩ <;>
    simp [correct_transcript, summarize_text, h₀, h₁, hp₁, hp₂, hp₃]

/-- Witness for C8: the missing-key error at the recognized default provider
"openai", the provider-naming error at the unrecognized "mistral" with key
"sk-1", and NotImplemented at "local". -/
theorem llm_failure_modes_witness :
    correct_transcript "abc" "openai" "m" none none (fun _ => Except.ok "x") =
      Except.error (PyError.valueError "API key is required") ∧
    summarize_text "abc" "openai" "m" "Brief" 10 none none (fun _ => Except.ok "x") =
      Except.error (PyError.valueError "API key is required") ∧
    correct_transcript "abc" "mistral" "m" none (some "sk-1") (fun _ => Except.ok "x") =
      Except.error (PyError.valueError ("Unknown provider: " ++ "mistral")) ∧
    summarize_text "abc" "mistral" "m" "Brief" 10 none (some "sk-1") (fun _ => Except.ok "x") =
      Except.error (PyError.valueError ("Unknown provider: " ++ "mistral")) ∧
    correct_transcript "abc" "local" "m" none (some "sk-1") (fun _ => Except.ok "x") =
      Except.error (PyError.notImplementedError
        "Local provider not yet implemented. Please use OpenAI or Anthropic.") ∧
    summarize_text "abc" "local" "m" "Brief" 10 none (some "sk-1") (fun _ => Except.ok "x") =
      Except.error (PyError.notImplementedError
        "Local provider not yet implemented. Please use OpenAI or Anthropic.") :=
  llm_failure_modes "abc" "m" "Brief" 10 none none (some "sk-1") "openai" "mistral"
    (fun _ => Except.ok "x") (fun _ => Except.ok "x")
    (by decide) (by decide) (by decide) (by decide) (by decide)

/-- C10: a summary type outside the four canned ones does not make
`summarize_text` fail when no custom prompt is given: the instruction falls
back to "Create a summary" and the request is still issued, its prompt built
from that generic instruction and the target word count. -/
theorem summarize_unknown_type_fallback (text model stype : String) (len : Nat)
    (key : Option String) (r : LLMResponder) (hkey : strTruthy key = true)
    (h₁ : stype ≠ "Brief") (h₂ : stype ≠ "Detailed") (h₃ : stype ≠ "Bullet Points")
    (h₄ : stype ≠ "Executive Summary") :
    type_instruction stype = "Create a summary" ∧
    summarize_text text "openai" model stype len none key r =
      (r { system := summarizerSystem,
           user := "Create a summary" ++ " of the following text in approximately " ++
             toString len ++ " words. Return only the summary without additional commentary." ++
             "\n\nText:\n" ++ text,
           model := model, temperature := 7/10, max_tokens := 2000 }).map pyStrip := by
  have hi : type_instruction stype = "Create a summary" := by
    simp [type_instruction, h₁, h₂, h₃, h₄]
  have hn : strTruthy (none : Option String) = false := rfl
  refine ⟨hi, ?_⟩
  simp [summarize_text, hkey, hn, hi]

/-- Witness for C10 at the default summary type "concise" of the app. -/
theorem summarize_unknown_type_fallback_witness :
    type_instruction "concise" = "Create a summary" ∧
    summarize_text "abc" "openai" "gpt-4o" "concise" 300 none (some "sk-1")
      (fun req => Except.ok req.user) =
      ((fun req : LLMRequest => Except.ok req.user)
        { system := summarizerSystem,
          user := "Create a summary" ++ " of the following text in approximately " ++
            toString 300 ++ " words. Return only the summary without additional commentary." ++
            "\n\nText:\n" ++ "abc",
          model := "gpt-4o", temperature := 7/10, max_tokens := 2000 }).map pyStrip :=
  summarize_unknown_type_fallback "abc" "gpt-4o" "concise" 300 (some "sk-1")
    (fun req => Except.ok req.user) (by decide) (by decide) (by decide) (by decide) (by decide)

/-! ## Lesson persistence (src/services/lesson_service.py)

Only the fields and operations the claims reach are embedded.  The
transcript column holds the JSON dictionary written by `save_transcript`
(either `{"segments": [...]}` or `{"text": ...}`); the legacy raw-string
format that `get_transcript_text` can additionally migrate at read time is
never produced by the embedded writers and no claim depends on it. -/

structure Segment where
  start : ℚ
  stop : ℚ
  text : String
  deriving DecidableEq, Repr

inductive TranscriptDict where
  | segDict (segments : List Segment)
  | textDict (text : String)
  deriving DecidableEq, Repr

/-- db.models Metadata for corrections and summaries. -/
structure Metadata where
  provider : Option String
  model : Option String
  temperature : Option ℚ
  prompt : Option String
  deriving DecidableEq, Repr

structure TranscriptMetadata where
  model_size : Option String
  device : Option String
  compute_type : Option String
  beam_size : Option Nat
  vad_filter : Option Bool
  language : Option String
  initial_prompt : Option String
  deriving DecidableEq, Repr

/-- A lesson row restricted to the stage slots; `corrected_transcript` holds
the text field of the stored `{"text": ...}` dictionary. -/
structure Lesson where
  transcript : Option TranscriptDict
  transcript_metadata : Option TranscriptMetadata
  corrected_transcript : Option String
  correction_metadata : Option Metadata
  summary : Option String
  summary_metadata : Option Metadata
  deriving DecidableEq, Repr

def emptyLesson : Lesson :=
  { transcript := none, transcript_metadata := none, corrected_transcript := none,
    correction_metadata := none, summary := none, summary_metadata := none }

/-- The `transcript_data` argument of `save_transcript`: a list of segments
or plain text, matching the isinstance(list) dispatch. -/
inductive TranscriptData where
  | segments (l : List Segment)
  | text (s : String)
  deriving DecidableEq, Repr

/-- Embeds `LessonService.save_transcript`: wraps the data in the corresponding
dictionary shape and replaces the transcript slot and its metadata. -/
def save_transcript (lesson : Lesson) (transcript_data : TranscriptData)
    (metadata : TranscriptMetadata) : Lesson :=
  match transcript_data with
  | TranscriptData.segments l =>
      { lesson with transcript := some (TranscriptDict.segDict l),
                    transcript_metadata := some metadata }
  | TranscriptData.text s =>
      { lesson with transcript := some (TranscriptDict.textDict s),
                    transcript_metadata := some metadata }

/-- Embeds `LessonService.save_corrected_transcript`: replaces the corrected slot
with `{"text": corrected_text}` and the correction metadata wholesale. -/
def save_corrected_transcript (lesson : Lesson) (corrected_text : String)
    (provider model : Option String) (temperature : Option ℚ)
    (prompt : Option String) : Lesson :=
  { lesson with corrected_transcript := some corrected_text,
                correction_metadata :=
                  some { provider := provider, model := model,
                         temperature := temperature, prompt := prompt } }

/-- Python `"\n".join` over a list of strings. -/
def joinNL : List String → String
  | [] => ""
  | [s] => s
  | s :: rest => s ++ "\n" ++ joinNL rest

/-- Embeds `LessonService.get_transcript_text` on the dictionary-shaped slot: a
segments dictionary flattens to the stripped segment texts joined by
newlines, a text dictionary yields its text field, an absent slot yields
`None`. -/
def get_transcript_text (lesson : Lesson) : Option String :=
  match lesson.transcript with
  | none => none
  | some (TranscriptDict.segDict segments) =>
      some (joinNL (segments.map (fun seg => (pyStrip seg.text))))
  | some (TranscriptDict.textDict text) => some text

/-! ## The Correct stage closure (src/pages/Process.py, correct_task) -/

/-- The correction configuration captured before the thread starts:
provider (lower-cased), model, temperature, prompt and the session api
key. -/
structure CorrectionConfig where
  provider : String
  model : String
  temperature : ℚ
  prompt : String
  api_key : Option String

/-- The `correct_task` closure: run `correct_transcript` on the captured
text; only on success call `save_corrected_transcript` with the captured
provenance values.  Returns the task outcome together with the lesson row
as the work left it. -/
def correct_task (cfg : CorrectionConfig) (text_captured : String) (lesson : Lesson)
    (responder : LLMResponder) : Except PyError String × Lesson :=
  match correct_transcript text_captured cfg.provider cfg.model (some cfg.prompt)
      cfg.api_key responder with
  | Except.error e => (Except.error e, lesson)
  | Except.ok corrected_text =>
      (Except.ok corrected_text,
       save_corrected_transcript lesson corrected_text (some cfg.provider)
         (some cfg.model) (some cfg.temperature) (some cfg.prompt))

/-- What the registry stores for a stage body outcome: `task_wrapper` keeps
the returned text on success and `str(e)` on an exception. -/
def task_outcome (r : Except PyError String) : Except String (Option String) :=
  match r with
  | Except.ok t => Except.ok (some t)
  | Except.error e => Except.error e.msg

theorem append_eq_empty {a b : String} (h : a ++ b = "") : a = "" ∧ b = "" := by
  have hd := congrArg String.data h
  rw [String.data_append] at hd
  have hsplit := List.append_eq_nil.mp hd
  exact ⟨String.ext hsplit.1, String.ext hsplit.2⟩

theorem joinNL_ne_empty (l : List String) (h : ∃ x ∈ l, x ≠ "") : joinNL l ≠ "" := by
  match l with
  | [] => simp at h
  | [a] =>
      obtain ⟨x, hx, hne⟩ := h
      simp at hx
      subst hx
      simpa [joinNL] using hne
  | a :: b :: t =>
      intro hcontra
      have hj : joinNL (a :: b :: t) = a ++ "\n" ++ joinNL (b :: t) := rfl
      rw [hj] at hcontra
      obtain ⟨h₁, _⟩ := append_eq_empty hcontra
      obtain ⟨_, h₂⟩ := append_eq_empty h₁
      exact absurd h₂ (by decide)

/-- C9 fails as stated: a segmented transcript whose (non-empty) segment
list carries only blank text flattens to the empty string.  The segment
respects the ordering invariants (start 0, end 1). -/
theorem transcript_roundtrip_counterexample :
    get_transcript_text (save_transcript emptyLesson
      (TranscriptData.segments [{ start := 0, stop := 1, text := "" }])
      { model_size := none, device := none, compute_type := none, beam_size := none,
        vad_filter := none, language := none, initial_prompt := none }) = some "" := rfl

/-- C9 amended: after `save_transcript`, a plain-text transcript with
non-empty text flattens to that very text, and a segmented transcript whose
list contains at least one segment with non-blank text flattens to the
newline join of the stripped segment texts, which is non-empty. -/
theorem transcript_roundtrip (lesson : Lesson) (s : String) (segs : List Segment)
    (meta : TranscriptMetadata) (hs : s ≠ "")
    (hseg : ∃ seg ∈ segs, (pyStrip seg.text) ≠ "") :
    get_transcript_text (save_transcript lesson (TranscriptData.text s) meta) = some s ∧
    get_transcript_text (save_transcript lesson (TranscriptData.segments segs) meta) =
      some (joinNL (segs.map (fun seg => (pyStrip seg.text)))) ∧
    joinNL (segs.map (fun seg => (pyStrip seg.text))) ≠ "" := by
  refine ⟨rfl, rfl, ?_⟩
  apply joinNL_ne_empty
  obtain ⟨seg, hmem, hne⟩ := hseg
  exact ⟨(pyStrip seg.text), List.mem_map_of_mem _ hmem, hne⟩

/-- Witness for C9 at the transcripts of the testable-properties section. -/
theorem transcript_roundtrip_witness :
    get_transcript_text (save_transcript emptyLesson (TranscriptData.text "abc")
      { model_size := none, device := none, compute_type := none, beam_size := none,
        vad_filter := none, language := none, initial_prompt := none }) = some "abc" ∧
    get_transcript_text (save_transcript emptyLesson
      (TranscriptData.segments
        [{ start := 0, stop := 2, text := "hello" }, { start := 2, stop := 5, text := "world" }])
      { model_size := none, device := none, compute_type := none, beam_size := none,
        vad_filter := none, language := none, initial_prompt := none }) =
      some (joinNL
        (([{ start := 0, stop := 2, text := "hello" },
           { start := 2, stop := 5, text := "world" }] : List Segment).map
          (fun seg => (pyStrip seg.text)))) ∧
    joinNL (([{ start := 0, stop := 2, text := "hello" },
      { start := 2, stop := 5, text := "world" }] : List Segment).map
      (fun seg => (pyStrip seg.text))) ≠ "" :=
  transcript_roundtrip emptyLesson "abc"
    [{ start := 0, stop := 2, text := "hello" }, { start := 2, stop := 5, text := "world" }]
    { model_size := none, device := none, compute_type := none, beam_size := none,
      vad_filter := none, language := none, initial_prompt := none }
    (by decide)
    ⟨{ start := 0, stop := 2, text := "hello" }, by decide, by decide⟩

/-- C3: when the adapter call inside the Correct work body raises, the
lesson row is returned exactly as it was — the corrected slot and its
metadata keep their prior values — and harvesting the task under a fresh
key yields only the stored error string, with no result. -/
theorem correct_failure_leaves_lesson (cfg : CorrectionConfig) (text : String)
    (lesson : Lesson) (responder : LLMResponder) (e : PyError)
    (m : TaskManager String) (k : String)
    (herr : correct_transcript text cfg.provider cfg.model (some cfg.prompt)
      cfg.api_key responder = Except.error e)
    (hfree : dictContains m.background_tasks k = false) :
    correct_task cfg text lesson responder = (Except.error e, lesson) ∧
    get_error (finish_task
      (run_task m k (task_outcome (correct_task cfg text lesson responder).1)).1
      ⟨k, task_outcome (correct_task cfg text lesson responder).1⟩) k = some e.msg ∧
    get_result (finish_task
      (run_task m k (task_outcome (correct_task cfg text lesson responder).1)).1
      ⟨k, task_outcome (correct_task cfg text lesson responder).1⟩) k = none := by
  have hct : correct_task cfg text lesson responder = (Except.error e, lesson) := by
    simp [correct_task, herr]
  refine ⟨hct, ?_, ?_⟩
  · rw [hct]
    simp [task_outcome, run_task, hfree, finish_task, get_error, dictGet_set_self]
  · rw [hct]
    simp [task_outcome, run_task, hfree, finish_task, get_result, dictGet_set_self]

/-- The lesson of the C3 scenario: corrected text "Hello World." already
persisted with openai provenance. -/
def helloWorldLesson : Lesson :=
  { transcript := none, transcript_metadata := none,
    corrected_transcript := some "Hello World.",
    correction_metadata :=
      some { provider := some "openai", model := some "gpt-4o",
             temperature := some (3/10), prompt := some "P" },
    summary := none, summary_metadata := none }

/-- The correction configuration of the C3 scenario, pointed at the
always-failing local provider. -/
def localCfg : CorrectionConfig :=
  { provider := "local", model := "gpt-4o", temperature := 3/10, prompt := "P",
    api_key := some "sk-1" }

/-- Witness for C3: the scenario of the spec — the lesson above, rerun with
the always-failing local provider, is returned untouched and only the error
text is stored. -/
theorem correct_failure_leaves_lesson_witness :
    correct_task localCfg "hi" helloWorldLesson (fun _ => Except.ok "x") =
      (Except.error (PyError.notImplementedError
        "Local provider not yet implemented. Please use OpenAI or Anthropic."),
       helloWorldLesson) ∧
    get_error (finish_task
      (run_task (TaskManager.mk [] [] []) "correct_1"
        (task_outcome (correct_task localCfg "hi" helloWorldLesson
          (fun _ => Except.ok "x")).1)).1
      ⟨"correct_1", task_outcome (correct_task localCfg "hi" helloWorldLesson
        (fun _ => Except.ok "x")).1⟩) "correct_1" =
      some (PyError.notImplementedError
        "Local provider not yet implemented. Please use OpenAI or Anthropic.").msg ∧
    get_result (finish_task
      (run_task (TaskManager.mk [] [] []) "correct_1"
        (task_outcome (correct_task localCfg "hi" helloWorldLesson
          (fun _ => Except.ok "x")).1)).1
      ⟨"correct_1", task_outcome (correct_task localCfg "hi" helloWorldLesson
        (fun _ => Except.ok "x")).1⟩) "correct_1" = none :=
  correct_failure_leaves_lesson localCfg "hi" helloWorldLesson (fun _ => Except.ok "x")
    (PyError.notImplementedError
      "Local provider not yet implemented. Please use OpenAI or Anthropic.")
    (TaskManager.mk [] [] []) "correct_1" rfl rfl

/-- C5 fails on the code: with the openai provider, the Correct work body
issues exactly one LLM request and that request carries temperature 0.7 —
the value hard-wired in `correct_transcript`, not the configured one —
while the provenance metadata persisted next to the corrected text records
the configured temperature.  The equation exhibits both: the task outcome
equals the responder applied at temperature 7/10, and the saved metadata
holds `cfg.temperature`. -/
theorem correct_temperature_mismatch (cfg : CorrectionConfig) (text : String)
    (lesson : Lesson) (responder : LLMResponder) (out : String)
    (hkey : strTruthy cfg.api_key = true) (hprov : cfg.provider = "openai")
    (hp : cfg.prompt ≠ "")
    (hresp : responder
      { system := correctorSystem,
        user := cfg.prompt ++ "\n\nTranscription:\n" ++ text, model := cfg.model,
        temperature := 7/10, max_tokens := 4000 } = Except.ok out) :
    correct_task cfg text lesson responder =
      (Except.ok (pyStrip out),
       save_corrected_transcript lesson (pyStrip out) (some cfg.provider)
         (some cfg.model) (some cfg.temperature) (some cfg.prompt)) ∧
    (correct_task cfg text lesson responder).2.correction_metadata =
      some { provider := some cfg.provider, model := some cfg.model,
             temperature := some cfg.temperature, prompt := some cfg.prompt } := by
  have hcp : strTruthy (some cfg.prompt) = true := by simp [strTruthy, hp]
  have hcall : correct_transcript text cfg.provider cfg.model (some cfg.prompt)
      cfg.api_key responder = Except.ok (pyStrip out) := by
    rw [correct_transcript.eq_def]
    simp [hkey, hcp, hprov, hresp, Except.map]
  constructor
  · simp [correct_task, hcall]
  · simp [correct_task, hcall, save_corrected_transcript]

/-- The correction configuration of the Process page defaults: openai at the
configured temperature 0.3. -/
def openaiCfg : CorrectionConfig :=
  { provider := "openai", model := "gpt-4o", temperature := 3/10, prompt := "Fix.",
    api_key := some "sk-1" }

/-- Witness for C5 at the app default temperature 0.3: the request goes out
at 0.7, the metadata records 0.3, and the two differ. -/
theorem correct_temperature_mismatch_witness :
    (correct_task openaiCfg "hello" emptyLesson (fun _ => Except.ok "ok") =
      (Except.ok (pyStrip "ok"),
       save_corrected_transcript emptyLesson (pyStrip "ok") (some openaiCfg.provider)
         (some openaiCfg.model) (some openaiCfg.temperature) (some openaiCfg.prompt)) ∧
    (correct_task openaiCfg "hello" emptyLesson
        (fun _ => Except.ok "ok")).2.correction_metadata =
      some { provider := some openaiCfg.provider, model := some openaiCfg.model,
             temperature := some openaiCfg.temperature,
             prompt := some openaiCfg.prompt }) ∧
    openaiCfg.temperature = 3/10 ∧ (3 : ℚ)/10 ≠ 7/10 :=
  ⟨correct_temperature_mismatch openaiCfg "hello" emptyLesson (fun _ => Except.ok "ok")
      "ok" (by decide) rfl (by decide) rfl,
   rfl, by norm_num⟩

/-! ## Task keys (src/pages/Process.py) -/

/-- Transcribe tab task id for a lesson. -/
def transcribe_task_id (lesson_id : Nat) : String :=
  "transcribe_" ++ toString lesson_id

/-- Correct tab task id for a lesson. -/
def correct_task_id (lesson_id : Nat) : String :=
  "correct_" ++ toString lesson_id

/-- Summarize tab task id: lesson id and the transcript-type radio label
("Original Transcript" or "Corrected Transcript"). -/
def summary_task_id (lesson_id : Nat) (transcript_type : String) : String :=
  "summary_" ++ toString lesson_id ++ "_" ++ transcript_type

theorem string_ne_of_head_ne (x y : String) (cx cy : Char) (tx ty : List Char)
    (hx : x.data = cx :: tx) (hy : y.data = cy :: ty) (hc : cx ≠ cy) : x ≠ y := by
  intro heq
  rw [heq, hy] at hx
  exact hc (List.cons.inj hx.symm).1

theorem string_append_right_ne (s a b : String) (h : a ≠ b) : s ++ a ≠ s ++ b := by
  intro heq
  apply h
  have hd := congrArg String.data heq
  rw [String.data_append, String.data_append] at hd
  exact String.ext (List.append_cancel_left hd)

/-- C6 fails as stated: the code builds its keys with underscores and the
prefix "summary", not the colon formats of the claim — already at lesson 1
every claimed key differs from the actual one. -/
theorem task_key_format_counterexample :
    transcribe_task_id 1 = "transcribe_1" ∧ transcribe_task_id 1 ≠ "transcribe:1" ∧
    correct_task_id 1 = "correct_1" ∧ correct_task_id 1 ≠ "correct:1" ∧
    summary_task_id 1 "Original Transcript" = "summary_1_Original Transcript" ∧
    summary_task_id 1 "Original Transcript" ≠ "summarize:1:Transcript" := by
  refine ⟨?_, ?_, ?_, ?_, ?_, ?_⟩ <;> decide

/-- C6 amended: for every lesson id the keys are "transcribe_{id}",
"correct_{id}" and "summary_{id}_{transcriptType}" with the transcript-type
label "Original Transcript" or "Corrected Transcript"; the four keys of a
lesson are pairwise distinct, so summarizing from the original and from the
corrected transcript remain independently trackable operations. -/
theorem task_key_formats (n : Nat) :
    transcribe_task_id n = "transcribe_" ++ toString n ∧
    correct_task_id n = "correct_" ++ toString n ∧
    summary_task_id n "Original Transcript" =
      "summary_" ++ toString n ++ "_" ++ "Original Transcript" ∧
    summary_task_id n "Corrected Transcript" =
      "summary_" ++ toString n ++ "_" ++ "Corrected Transcript" ∧
    summary_task_id n "Original Transcript" ≠ summary_task_id n "Corrected Transcript" ∧
    transcribe_task_id n ≠ correct_task_id n ∧
    transcribe_task_id n ≠ summary_task_id n "Original Transcript" ∧
    transcribe_task_id n ≠ summary_task_id n "Corrected Transcript" ∧
    correct_task_id n ≠ summary_task_id n "Original Transcript" ∧
    correct_task_id n ≠ summary_task_id n "Corrected Transcript" := by
  have htd : (transcribe_task_id n).data =
      't' :: ("ranscribe_".data ++ (toString n).data) := by
    show ("transcribe_" ++ toString n).data = _
    rw [String.data_append]
    rfl
  have hcd : (correct_task_id n).data =
      'c' :: ("orrect_".data ++ (toString n).data) := by
    show ("correct_" ++ toString n).data = _
    rw [String.data_append]
    rfl
  have hso : (summary_task_id n "Original Transcript").data =
      's' :: (("ummary_".data ++ (toString n).data) ++ "_Original Transcript".data) := by
    show ("summary_" ++ toString n ++ "_" ++ "Original Transcript").data = _
    rw [String.data_append, String.data_append, String.data_append]
    simp
  have hsc : (summary_task_id n "Corrected Transcript").data =
      's' :: (("ummary_".data ++ (toString n).data) ++ "_Corrected Transcript".data) := by
    show ("summary_" ++ toString n ++ "_" ++ "Corrected Transcript").data = _
    rw [String.data_append, String.data_append, String.data_append]
    simp
  refine ⟨rfl, rfl, rfl, rfl, ?_, ?_, ?_, ?_, ?_, ?_⟩
  · exact string_append_right_ne ("summary_" ++ toString n ++ "_") _ _ (by decide)
  · exact string_ne_of_head_ne _ _ 't' 'c' _ _ htd hcd (by decide)
  · exact string_ne_of_head_ne _ _ 't' 's' _ _ htd hso (by decide)
  · exact string_ne_of_head_ne _ _ 't' 's' _ _ htd hsc (by decide)
  · exact string_ne_of_head_ne _ _ 'c' 's' _ _ hcd hso (by decide)
  · exact string_ne_of_head_ne _ _ 'c' 's' _ _ hcd hsc (by decide)

/-- Witness for C4 at a concrete registry holding a completed task. -/
theorem clear_task_returns_to_absent_witness :
    is_running (clear_task (TaskManager.mk [("correct_1", false)]
      [("correct_1", some 9)] [("correct_1", none)] : TaskManager Nat) "correct_1")
      "correct_1" = false ∧
    is_complete (clear_task (TaskManager.mk [("correct_1", false)]
      [("correct_1", some 9)] [("correct_1", none)] : TaskManager Nat) "correct_1")
      "correct_1" = false ∧
    dictGet (clear_task (TaskManager.mk [("correct_1", false)]
      [("correct_1", some 9)] [("correct_1", none)] : TaskManager Nat)
      "correct_1").task_results "correct_1" = none ∧
    dictGet (clear_task (TaskManager.mk [("correct_1", false)]
      [("correct_1", some 9)] [("correct_1", none)] : TaskManager Nat)
      "correct_1").task_errors "correct_1" = none ∧
    get_result (clear_task (TaskManager.mk [("correct_1", false)]
      [("correct_1", some 9)] [("correct_1", none)] : TaskManager Nat) "correct_1")
      "correct_1" = none ∧
    get_error (clear_task (TaskManager.mk [("correct_1", false)]
      [("correct_1", some 9)] [("correct_1", none)] : TaskManager Nat) "correct_1")
      "correct_1" = none :=
  clear_task_returns_to_absent
    (TaskManager.mk [("correct_1", false)] [("correct_1", some 9)] [("correct_1", none)])
    "correct_1"

/-- Witness for the amended C6 at lesson id 1. -/
theorem task_key_formats_witness :
    transcribe_task_id 1 = "transcribe_" ++ toString 1 ∧
    correct_task_id 1 = "correct_" ++ toString 1 ∧
    summary_task_id 1 "Original Transcript" =
      "summary_" ++ toString 1 ++ "_" ++ "Original Transcript" ∧
    summary_task_id 1 "Corrected Transcript" =
      "summary_" ++ toString 1 ++ "_" ++ "Corrected Transcript" ∧
    summary_task_id 1 "Original Transcript" ≠ summary_task_id 1 "Corrected Transcript" ∧
    transcribe_task_id 1 ≠ correct_task_id 1 ∧
    transcribe_task_id 1 ≠ summary_task_id 1 "Original Transcript" ∧
    transcribe_task_id 1 ≠ summary_task_id 1 "Corrected Transcript" ∧
    correct_task_id 1 ≠ summary_task_id 1 "Original Transcript" ∧
    correct_task_id 1 ≠ summary_task_id 1 "Corrected Transcript" :=
  task_key_formats 1
